import Mathlib

/-!
Verification development for the `threat_detector` repository.

The Python sources are shallowly embedded: pure functions become Lean
functions over `String`, `List` and `ℚ`; network requests, TLS handshakes,
`BeautifulSoup` parsing and `re.search` regex matching are external effects
and are passed in as explicit oracle data (parsed page structures, response
bodies, boolean regex matchers), so that every embedded function is total
and executable.
-/

namespace ThreatDetector

/-- ASCII lower-casing of one character; models Python `str.lower` on the
ASCII strings this repository manipulates. -/
def lowerChar (c : Char) : Char :=
  if 'A' ≤ c ∧ c ≤ 'Z' then Char.ofNat (c.toNat + 32) else c

/-- Models Python `s.lower()`. -/
def lowerStr (s : String) : String := ⟨s.data.map lowerChar⟩

/-- Models the Python substring test `needle in hay`. -/
def containsSub (hay needle : String) : Bool :=
  decide (List.IsInfix needle.data hay.data)

/-- Models Python `s.startswith(p)`. -/
def startsWith (s p : String) : Bool :=
  decide (List.IsPrefix p.data s.data)

/-- ASCII whitespace, for Python `str.strip`. -/
def isSpace (c : Char) : Bool :=
  c == ' ' || c == '\t' || c == '\n' || c == '\r'

/-- Models Python `s.strip()`. -/
def strStrip (s : String) : String :=
  ⟨((s.data.dropWhile isSpace).reverse.dropWhile isSpace).reverse⟩

/-- Models Python `sep.join(parts)`. -/
def joinSep (sep : String) : List String → String
  | [] => ""
  | [s] => s
  | s :: t :: rest => s ++ sep ++ joinSep sep (t :: rest)

/-- A Python dict of string slots, as an association list in insertion
order (Python 3.7+ dicts preserve insertion order). -/
abbrev Features := List (String × String)

/-- Models `features.get(k, '')` / `features[k]` on a slot dict. -/
def getF (features : Features) (k : String) : String :=
  (((features.find? (fun kv => kv.1 == k))).map Prod.snd).getD ""

/-- Models the Python membership test `k in features` on a slot dict. -/
def hasKey (features : Features) (k : String) : Bool :=
  features.any (fun kv => kv.1 == k)

/-! ## risk_assessor.py -/

/-- Embedding of `assess_risk_level` (risk_assessor.py).  Confidence is
modelled as a rational number. -/
def assess_risk_level (confidence : ℚ) (predicted_label : String) : String :=
  if confidence < 3/10 then "LOW"
  else if confidence < 6/10 then "MEDIUM"
  else if confidence < 8/10 then "HIGH"
  else "CRITICAL"

/-! ## recommendation_generator.py -/

/-- Embedding of `generate_recommendations` (recommendation_generator.py),
mirroring the Python rule-by-rule list appends and the final `[:5]`. -/
def generate_recommendations (features : Features)
    (predicted_vulnerability : String) : List String :=
  let recommendations : List String := []
  let recommendations := if !hasKey features "security_headers"
      || getF features "security_headers" == "" then
    recommendations ++ ["Implement security headers (X-Frame-Options, CSP, HSTS)"]
    else recommendations
  let recommendations := if containsSub (lowerStr (getF features "headers")) "server" then
    recommendations ++ ["Consider hiding server version information"]
    else recommendations
  let recommendations := if containsSub (lowerStr (getF features "forms")) "form" then
    recommendations ++ ["Ensure all forms use HTTPS and proper validation"]
    else recommendations
  let vuln_lower := lowerStr predicted_vulnerability
  let recommendations := if containsSub vuln_lower "injection" || containsSub vuln_lower "sql" then
    recommendations ++ ["Use parameterized queries to prevent SQL injection",
      "Implement input validation and sanitization",
      "Use ORM frameworks with built-in protection"]
    else recommendations
  let recommendations := if containsSub vuln_lower "xss" || containsSub vuln_lower "scripting" then
    recommendations ++ ["Implement Content Security Policy (CSP)",
      "Sanitize all user inputs before output",
      "Use HTTPOnly and Secure flags for cookies"]
    else recommendations
  let recommendations := if containsSub vuln_lower "authentication" || containsSub vuln_lower "access" then
    recommendations ++ ["Implement multi-factor authentication",
      "Use strong password policies",
      "Implement proper session management"]
    else recommendations
  let recommendations := if containsSub vuln_lower "buffer" || containsSub vuln_lower "overflow" then
    recommendations ++ ["Implement proper input length validation",
      "Use safe string handling functions",
      "Enable compiler-based buffer overflow protections"]
    else recommendations
  let recommendations := if hasKey features "xss_check"
      && containsSub (lowerStr (getF features "xss_check")) "detected" then
    recommendations ++ ["Escape all user-generated content to prevent XSS"]
    else recommendations
  let recommendations := if hasKey features "ssl_check"
      && containsSub (lowerStr (getF features "ssl_check")) "weak" then
    recommendations ++ ["Upgrade to stronger SSL ciphers and TLS 1.3"]
    else recommendations
  let recommendations := if hasKey features "script_check"
      && containsSub (lowerStr (getF features "script_check")) "mixed content" then
    recommendations ++ ["Ensure all scripts are loaded over HTTPS"]
    else recommendations
  recommendations.take 5

/-- The ten recommendation rules of `generate_recommendations`, each giving
its (possibly empty) contribution, in the fixed source priority order. -/
def ruleOutputs (features : Features) (predicted_vulnerability : String) :
    List (List String) :=
  let vuln_lower := lowerStr predicted_vulnerability
  [ if !hasKey features "security_headers" || getF features "security_headers" == "" then
      ["Implement security headers (X-Frame-Options, CSP, HSTS)"] else [],
    if containsSub (lowerStr (getF features "headers")) "server" then
      ["Consider hiding server version information"] else [],
    if containsSub (lowerStr (getF features "forms")) "form" then
      ["Ensure all forms use HTTPS and proper validation"] else [],
    if containsSub vuln_lower "injection" || containsSub vuln_lower "sql" then
      ["Use parameterized queries to prevent SQL injection",
       "Implement input validation and sanitization",
       "Use ORM frameworks with built-in protection"] else [],
    if containsSub vuln_lower "xss" || containsSub vuln_lower "scripting" then
      ["Implement Content Security Policy (CSP)",
       "Sanitize all user inputs before output",
       "Use HTTPOnly and Secure flags for cookies"] else [],
    if containsSub vuln_lower "authentication" || containsSub vuln_lower "access" then
      ["Implement multi-factor authentication",
       "Use strong password policies",
       "Implement proper session management"] else [],
    if containsSub vuln_lower "buffer" || containsSub vuln_lower "overflow" then
      ["Implement proper input length validation",
       "Use safe string handling functions",
       "Enable compiler-based buffer overflow protections"] else [],
    if hasKey features "xss_check"
        && containsSub (lowerStr (getF features "xss_check")) "detected" then
      ["Escape all user-generated content to prevent XSS"] else [],
    if hasKey features "ssl_check"
        && containsSub (lowerStr (getF features "ssl_check")) "weak" then
      ["Upgrade to stronger SSL ciphers and TLS 1.3"] else [],
    if hasKey features "script_check"
        && containsSub (lowerStr (getF features "script_check")) "mixed content" then
      ["Ensure all scripts are loaded over HTTPS"] else [] ]

/-! ## feature_extractor.py: features_to_text -/

/-- The base text of `features_to_text`: non-empty slots rendered as
`"<name> <value>"` in dict insertion order, joined with single spaces,
mirroring the Python loop that appends to `text_parts`. -/
def baseText (features : Features) : String :=
  joinSep " "
    (features.foldl
      (fun acc kv => if kv.2 == "" then acc else acc ++ [kv.1 ++ " " ++ kv.2]) [])

/-- Embedding of `features_to_text` (feature_extractor.py): base text, then
the keyword-hint second pass over the lower-cased combined text. -/
def features_to_text (features : Features) : String :=
  let combined_text := baseText features
  let content_lower := lowerStr combined_text
  let vuln_keywords :=
    (if containsSub content_lower "sql" || containsSub content_lower "database"
        || containsSub content_lower "mysql" || containsSub content_lower "error" then
      ["database injection vulnerability"] else [])
    ++ (if containsSub content_lower "script" || containsSub content_lower "javascript"
        || containsSub content_lower "xss" then
      ["cross site scripting vulnerability"] else [])
    ++ (if containsSub content_lower "upload" || containsSub content_lower "file"
        || containsSub content_lower "path" then
      ["file inclusion vulnerability"] else [])
    ++ (if containsSub content_lower "admin" || containsSub content_lower "login"
        || containsSub content_lower "authentication" then
      ["authentication bypass vulnerability"] else [])
  if vuln_keywords.isEmpty then combined_text
  else combined_text ++ " " ++ joinSep " " vuln_keywords

/-- The four keyword clusters of the hint pass, with their trigger words
and hint phrases, in the fixed source evaluation order. -/
def hintClusters : List (List String × String) :=
  [ (["sql", "database", "mysql", "error"], "database injection vulnerability"),
    (["script", "javascript", "xss"], "cross site scripting vulnerability"),
    (["upload", "file", "path"], "file inclusion vulnerability"),
    (["admin", "login", "authentication"], "authentication bypass vulnerability") ]

/-- The hint phrases the second pass appends for a given base text. -/
def hintPhrases (t : String) : List String :=
  (hintClusters.filter
    (fun cl => cl.1.any (fun w => containsSub (lowerStr t) w))).map Prod.snd

/-- The feature dict as assembled by the pipeline (`main.py`): the eight
extractor slots in their initialization order, then the three probe slots
appended by assignment, in order. -/
def mkFeatures (u h c t fo l e s x ss sc : String) : Features :=
  [("url_analysis", u), ("headers", h), ("content", c), ("technologies", t),
   ("forms", fo), ("links", l), ("errors", e), ("security_headers", s),
   ("xss_check", x), ("ssl_check", ss), ("script_check", sc)]

/-! ## predictor.py -/

/-- The ordering used to model `np.argsort` on the probability vector:
ascending by value, ties by ascending index.  A stable ascending argsort
(numpy's sort is stable on the short vectors used here, where its
introsort falls back to insertion sort) is exactly the sort of the index
range by this value-then-index lexicographic order. -/
def argsortRel (p : List ℚ) (i j : ℕ) : Prop :=
  p.getD i 0 < p.getD j 0 ∨ (p.getD i 0 = p.getD j 0 ∧ i ≤ j)

instance argsortRelDecidable (p : List ℚ) : DecidableRel (argsortRel p) := fun i j => by
  unfold argsortRel
  infer_instance

/-- Models `np.argsort(predictions[0])`. -/
def argsort (p : List ℚ) : List ℕ :=
  List.insertionSort (argsortRel p) (List.range p.length)

/-- Models `np.argsort(predictions[0])[-3:][::-1]`: the last three entries
of the ascending argsort, reversed. -/
def top3Indices (p : List ℚ) : List ℕ :=
  ((argsort p).drop (p.length - 3)).reverse

def argmaxStep (p : List ℚ) (best i : ℕ) : ℕ :=
  if p.getD best 0 < p.getD i 0 then i else best

/-- Models `np.argmax(predictions[0])`: the first index attaining the
maximum (the running best changes only on a strict increase). -/
def argmaxIdx (p : List ℚ) : ℕ :=
  (List.range p.length).foldl (argmaxStep p) 0

/-- The parts of the dict returned by `predict_vulnerability` that the
claims concern. -/
structure Prediction where
  predicted_vulnerability : String
  confidence : ℚ
  top_3_predictions : List (String × ℚ)

/-- Embedding of `predict_vulnerability` (predictor.py) downstream of the
opaque classifier: the label list models `int_to_label` and `probs` models
`predictions[0]`. -/
def predict_vulnerability (int_to_label : List String) (probs : List ℚ) : Prediction :=
  let predIdx := argmaxIdx probs
  { predicted_vulnerability := int_to_label.getD predIdx "Unknown"
    confidence := probs.getD predIdx 0
    top_3_predictions := (top3Indices probs).map
      (fun i => (int_to_label.getD i ("Class_" ++ toString i), probs.getD i 0)) }

/-! ## xss_checker.py

The page fetch, `BeautifulSoup` parse, `re.search` matching and form
submissions are external effects; the parsed page arrives as an `XPage`
(or a fetch/parse fault) and the regex engine and HTTP client arrive as
oracle functions in `XssEnv`. -/

inductive FieldKind
  | input
  | textarea
deriving DecidableEq

/-- An `<input>` or `<textarea>` element: its `type` and `name` attributes
(`none` = attribute absent). -/
structure XField where
  kind : FieldKind
  ftype : Option String
  name : Option String

/-- An element scanned for inline event handlers: its attribute names. -/
structure XTag where
  attrNames : List String

/-- A `<form>` element: `action`/`method` attributes and child
input/textarea fields in document order. -/
structure XForm where
  action : Option String
  method : Option String
  fields : List XField

/-- The parsed page `check_xss` works on: raw body, the a/img/button/input
elements, the hrefs of `<a href=...>` anchors, and the forms. -/
structure XPage where
  content : String
  tags : List XTag
  anchors : List String
  forms : List XForm

/-- External effects of `check_xss`: `rmatch pat text` models
`re.search(pat, text)`; `submit isPost action params` models the form
submission (POST data / GET params); `fetch url` models the final `?q=`
GET.  An `Except.error` models a raised exception with its message. -/
structure XssEnv where
  rmatch : String → String → Bool
  submit : Bool → String → List (String × String) → Except String String
  fetch : String → Except String String

/-- The fixed static regex marker list of `check_xss`. -/
def xssPatterns : List String :=
  ["<script.*?>", "javascript:", "onerror\\s*=", "onload\\s*=", "alert\\s*\\(",
   "document\\.cookie", "<img[^>]+src\\s*=", "<iframe.*?>", "onclick\\s*=",
   "onmouseover\\s*=", "onfocus\\s*=", "oninput\\s*=", "onchange\\s*="]

/-- The fixed marker payload of the active reflection layer. -/
def testPayload : String := "<svg/onload=alert(\x27XSS_\x27)>"

/-- Python-dict insertion: update in place if the key exists (position
kept), else append. -/
def dictInsert (k v : String) (d : List (String × String)) : List (String × String) :=
  if d.any (fun kv => kv.1 == k) then
    d.map (fun kv => if kv.1 == k then (k, v) else kv)
  else d ++ [(k, v)]

/-- One iteration of the params loop: an `<input>` child with a truthy
(non-`None`, non-empty) `name` is entered into the dict with the payload;
anything else — including every textarea — is skipped, because the source
loops over `form.find_all('input')` only. -/
def formStep (d : List (String × String)) (fd : XField) : List (String × String) :=
  match fd.kind, fd.name with
  | FieldKind.input, some n => if n = "" then d else dictInsert n testPayload d
  | _, _ => d

/-- The params dict built for one form. -/
def formParams (f : XForm) : List (String × String) :=
  f.fields.foldl formStep []

/-- The active reflection loop over the forms, in document order; a failed
submission aborts with its exception, as in the source where the whole
body sits in one `try`. -/
def activeScan (url : String) (env : XssEnv) : List XForm → Except String (List String)
  | [] => Except.ok []
  | f :: rest =>
    let action := f.action.getD url
    let method := lowerStr (f.method.getD "get")
    let params := formParams f
    if params.isEmpty then activeScan url env rest
    else
      match env.submit (method == "post") action params with
      | Except.error e => Except.error e
      | Except.ok resp =>
        match activeScan url env rest with
        | Except.error e => Except.error e
        | Except.ok more =>
          Except.ok ((if containsSub resp testPayload then
            ["Potential reflected XSS detected in form (" ++ action ++ ")"] else []) ++ more)

/-- First-occurrence deduplication, modelling the `set(indicators)` the
source joins (Python set iteration order is unspecified; the claims proved
below do not depend on the join order). -/
def dedupFirst (l : List String) : List String :=
  l.foldl (fun acc s => if acc.contains s then acc else acc ++ [s]) []

/-- The body of `check_xss` after a successful page fetch/parse. -/
def check_xss_core (url : String) (pg : XPage) (env : XssEnv) : Except String String :=
  let contentLower := lowerStr pg.content
  let patInds := (xssPatterns.filter (fun p => env.rmatch p contentLower)).map
    (fun p => "Pattern detected: " ++ p)
  let tagInds := pg.tags.flatMap (fun t =>
    (t.attrNames.filter (fun a => startsWith (lowerStr a) "on")).map
      (fun a => "Inline JavaScript event handler found: " ++ a))
  let fieldInds := pg.forms.flatMap (fun f =>
    (f.fields.filter (fun fd => fd.ftype.getD "" == "text"
        || fd.ftype.getD "" == "search" || fd.ftype.getD "" == "password")).map
      (fun _ => "Unprotected user input detected (text/search/password)"))
  let jsInds := (pg.anchors.filter
      (fun h => startsWith (lowerStr (strStrip h)) "javascript:")).map
    (fun _ => "javascript: URI detected in anchor tag")
  match activeScan url env pg.forms with
  | Except.error e => Except.error e
  | Except.ok activeInds =>
    let qUrl := if containsSub url "?" then url ++ "&q=" ++ testPayload
      else url ++ "?q=" ++ testPayload
    match env.fetch qUrl with
    | Except.error e => Except.error e
    | Except.ok qResp =>
      let qInds := if containsSub qResp testPayload then
        ["Potential reflected XSS via ?q= param"] else []
      let indicators := patInds ++ tagInds ++ fieldInds ++ jsInds ++ activeInds ++ qInds
      Except.ok (if indicators.isEmpty then "No XSS issues detected"
        else "Possible XSS risk(s) detected: " ++ joinSep "; " (dedupFirst indicators))

/-- Embedding of `check_xss` (xss_checker.py): any fault anywhere in the
body degrades to the single diagnostic string. -/
def check_xss (url : String) (page : Except String XPage) (env : XssEnv) : String :=
  match page with
  | Except.error e => "XSS check error: " ++ e
  | Except.ok pg =>
    match check_xss_core url pg env with
    | Except.error e => "XSS check error: " ++ e
    | Except.ok s => s

/-! ## ssl_checker.py -/

/-- The peer certificate as far as `check_ssl` reads it. -/
structure SslCert where
  notAfter : Option String

/-- A connection-level fault: `socket.timeout` or any other exception. -/
inductive SslFault
  | timeout (msg : String)
  | other (msg : String)

/-- A completed TLS handshake: peer certificate (`getpeercert`),
negotiated cipher name (`cipher()[0]`) and protocol version. -/
structure SslConn where
  cert : Option SslCert
  cipher : Option String
  version : Option String

/-- External effects of `check_ssl`: the connection outcome, and
`daysToExpiry s` modelling `strptime` plus the day difference to now
(`none` = `ValueError` on parsing). -/
structure SslEnv where
  conn : Except SslFault SslConn
  daysToExpiry : String → Option Int

/-- The issues list `check_ssl` accumulates after a successful handshake
and certificate-date parse: expiry under 30 days, weak cipher, insecure
protocol version, in source order. -/
def sslIssues (days : Int) (cipher version : Option String) : List String :=
  (if days < 30 then
    ["SSL certificate expires in " ++ toString days ++ " days"] else [])
  ++ (match cipher with
      | some ciph => if containsSub ciph "RC4" || containsSub ciph "3DES" then
          ["Weak cipher detected: " ++ ciph] else []
      | none => [])
  ++ (match version with
      | some v => if !(v == "TLSv1.2") && !(v == "TLSv1.3") then
          ["Insecure TLS version: " ++ v] else []
      | none => [])

/-- Embedding of `check_ssl` (ssl_checker.py). -/
def check_ssl (env : SslEnv) : String :=
  match env.conn with
  | Except.error (SslFault.timeout _) => "SSL check timed out (connection took too long)"
  | Except.error (SslFault.other m) => "SSL check error: " ++ m
  | Except.ok c =>
    match c.cert with
    | none => "SSL certificate data unavailable"
    | some cert =>
      match cert.notAfter with
      | none => "SSL certificate expiration data missing"
      | some s =>
        match env.daysToExpiry s with
        | none => "Invalid expiration date format: " ++ s
        | some days =>
          let issues := sslIssues days c.cipher c.version
          if issues.isEmpty then "No SSL issues detected" else joinSep " " issues

/-! ## script_issues_checker.py -/

/-- The fixed script-issue regex list. -/
def scriptPatterns : List String :=
  ["<script[^>]*src=[\"\x27]http:", "eval\\(", "document\\.write\\(", "innerHTML\\s*="]

/-- The parsed page `check_script_issues` works on: raw body and the `src`
attributes of `<script src=...>` elements. -/
structure ScriptPage where
  content : String
  scriptSrcs : List String

/-- The indicators `check_script_issues` collects: regex hits over the
lower-cased body, then — only for an `https:` URL — a mixed-content
finding per literal `http:` script source. -/
def scriptIndicators (url : String) (pg : ScriptPage)
    (rmatch : String → String → Bool) : List String :=
  ((scriptPatterns.filter (fun p => rmatch p (lowerStr pg.content))).map
    (fun p => "Script issue pattern detected: " ++ p))
  ++ (if startsWith url "https:" then
      (pg.scriptSrcs.filter (fun s => startsWith s "http:")).map
        (fun s => "Mixed content: HTTP script " ++ s)
    else [])

/-- Embedding of `check_script_issues` (script_issues_checker.py). -/
def check_script_issues (url : String) (page : Except String ScriptPage)
    (rmatch : String → String → Bool) : String :=
  match page with
  | Except.error e => "Script issues check error: " ++ e
  | Except.ok pg =>
    let indicators := scriptIndicators url pg rmatch
    if indicators.isEmpty then "No script issues detected" else joinSep " " indicators

/-! ## feature_extractor.py: extract_website_features -/

/-- The fixed vulnerability-class regex table of feature_extractor.py. -/
def vuln_patterns : List (String × List String) :=
  [("sql_injection", ["mysql_error", "ora-\\d\x7b5\x7d", "microsoft ole db provider",
      "unclosed quotation mark", "syntax error.*query"]),
   ("xss", ["<script.*?>", "javascript:", "onerror=", "onload=", "alert\\(",
      "document\\.cookie"]),
   ("path_traversal", ["\\.\\.//", "\\.\\.\\\\", "%2e%2e%2f", "%2e%2e\\\\"]),
   ("server_disclosure", ["server:\\s*apache/[\\d.]+", "server:\\s*nginx/[\\d.]+",
      "server:\\s*microsoft-iis/[\\d.]+", "x-powered-by:"]),
   ("debug_info", ["stack trace", "debug mode", "exception.*?at\\s", "warning:",
      "notice:", "fatal error"])]

/-- The `urlparse` decomposition of the target URL. -/
structure UrlParts where
  netloc : String
  path : String
  query : String

/-- The fetched response as the extractor reads it: headers in arrival
order, raw body, the visible text `BeautifulSoup` extracts, the parsed
forms, and the hrefs of `<a href=...>` anchors in document order. -/
structure Response where
  headers : List (String × String)
  content : String
  visibleText : String
  forms : List XForm
  links : List String

/-- Where (if anywhere) the extraction fails: a `RequestException` during
the fetch, a generic parse fault after header analysis, or success. -/
inductive ExtractInput
  | reqFail (urlP : UrlParts) (msg : String)
  | parseFail (urlP : UrlParts) (headers : List (String × String)) (msg : String)
  | ok (urlP : UrlParts) (resp : Response)

def urlAnalysisText (u : UrlParts) : String :=
  "domain " ++ u.netloc ++ " path " ++ u.path ++ " query " ++ u.query

def securityHeaderNames : List String :=
  ["x-frame-options", "x-xss-protection", "x-content-type-options",
   "strict-transport-security", "content-security-policy"]

def headersText (hs : List (String × String)) : String :=
  joinSep " " (hs.map (fun kv => lowerStr kv.1 ++ " " ++ lowerStr kv.2))

def securityHeadersText (hs : List (String × String)) : String :=
  hs.foldl (fun acc kv =>
    if securityHeaderNames.contains (lowerStr kv.1) then
      acc ++ kv.1 ++ " " ++ kv.2 ++ " " else acc) ""

/-- Case-insensitive header lookup, modelling requests' header dict. -/
def getHeader (hs : List (String × String)) (name : String) : String :=
  (((hs.find? (fun kv => lowerStr kv.1 == name)).map Prod.snd)).getD ""

/-- Python slice `s[:n]`. -/
def strTake (s : String) (n : ℕ) : String := ⟨s.data.take n⟩

def technologiesText (resp : Response) : String :=
  let content := resp.content
  let cl := lowerStr content
  let tech :=
    (if containsSub content "wp-content" || containsSub cl "wordpress" then
      ["wordpress"] else [])
    ++ (if containsSub cl "drupal" then ["drupal"] else [])
    ++ (if containsSub cl "joomla" then ["joomla"] else [])
    ++ (if containsSub cl "react" then ["react"] else [])
    ++ (if containsSub cl "angular" then ["angular"] else [])
    ++ (if containsSub cl "vue" then ["vue"] else [])
  let server := lowerStr (getHeader resp.headers "server")
  let tech := if server == "" then tech else tech ++ ["server " ++ server]
  let powered := lowerStr (getHeader resp.headers "x-powered-by")
  let tech := if powered == "" then tech else tech ++ ["powered-by " ++ powered]
  joinSep " " tech

def formsText (forms : List XForm) : String :=
  joinSep " " (forms.flatMap (fun f =>
    ("form " ++ lowerStr (f.method.getD "get") ++ " " ++ f.action.getD "")
    :: f.fields.map (fun fd =>
      "input " ++ lowerStr (fd.ftype.getD "text") ++ " " ++ lowerStr (fd.name.getD ""))))

def sensitiveMarkers : List String := ["id=", "user=", "admin", "login", "upload"]

def linksText (links : List String) : String :=
  joinSep " " ((links.take 50).foldl (fun acc href =>
    let h := lowerStr href
    if sensitiveMarkers.any (fun m => containsSub h m) then
      acc ++ ["link " ++ h] else acc) [])

def errorsText (rmatch : String → String → Bool) (content : String) : String :=
  let cl := lowerStr content
  joinSep " " (vuln_patterns.flatMap (fun vp =>
    (vp.2.filter (fun pat => rmatch pat cl)).map (fun _ => vp.1 ++ " pattern detected")))

/-- The slot dict as initialized at the top of the extractor. -/
def initFeatures : Features :=
  [("url_analysis", ""), ("headers", ""), ("content", ""), ("technologies", ""),
   ("forms", ""), ("links", ""), ("errors", ""), ("security_headers", "")]

/-- Python dict assignment on an existing key (position kept). -/
def setSlot (k v : String) (features : Features) : Features :=
  features.map (fun kv => if kv.1 == k then (k, v) else kv)

/-- Embedding of `extract_website_features` (feature_extractor.py): the
slot assignments of each control path applied to the initial dict.  A
`RequestException` leaves only `url_analysis` set and records the
connection error; a parse fault after header analysis keeps the header
slots and records the analysis error. -/
def extract_website_features (input : ExtractInput)
    (rmatch : String → String → Bool) : Features :=
  match input with
  | ExtractInput.reqFail up msg =>
    setSlot "errors" ("connection error " ++ msg)
      (setSlot "url_analysis" (urlAnalysisText up) initFeatures)
  | ExtractInput.parseFail up hs msg =>
    setSlot "errors" ("analysis error " ++ msg)
      (setSlot "headers" (headersText hs)
        (setSlot "security_headers" (securityHeadersText hs)
          (setSlot "url_analysis" (urlAnalysisText up) initFeatures)))
  | ExtractInput.ok up resp =>
    setSlot "errors" (errorsText rmatch resp.content)
      (setSlot "links" (linksText resp.links)
        (setSlot "forms" (formsText resp.forms)
          (setSlot "technologies" (technologiesText resp)
            (setSlot "content" (strTake resp.visibleText 2000)
              (setSlot "headers" (headersText resp.headers)
                (setSlot "security_headers" (securityHeadersText resp.headers)
                  (setSlot "url_analysis" (urlAnalysisText up) initFeatures)))))))

/-! ## Spec-side rendering (for the refinement comparison of C8) -/

/-- Rendering as the spec words it: non-empty slots rendered as
`"<slot-name> <slot-value>"` in the fixed slot order, empty slots skipped
entirely, rendered pairs joined with single spaces. -/
def specEncodeBase (features : Features) : String :=
  joinSep " " ((features.filter (fun kv => !(kv.2 == ""))).map
    (fun kv => kv.1 ++ " " ++ kv.2))

/-- Full spec-side encoder: base rendering, then the hint phrases of the
matched clusters appended once each in cluster order. -/
def specEncode (features : Features) : String :=
  if (hintPhrases (specEncodeBase features)).isEmpty then specEncodeBase features
  else specEncodeBase features ++ " " ++ joinSep " " (hintPhrases (specEncodeBase features))

/-- The truthy `name` attribute of a field, if any. -/
def namedName (fd : XField) : Option String :=
  match fd.name with
  | some n => if n = "" then none else some n
  | none => none

/-- The names the active layer of `check_xss` fills for one form: the
non-empty `name` attributes of the form's `<input>` children, in document
order. -/
def namedInputNames (f : XForm) : List String :=
  (f.fields.filter (fun fd => fd.kind == FieldKind.input)).filterMap namedName

/-! ## Helper lemmas -/

theorem ite_append_shared (c : Prop) [Decidable c] (l acc : List String) :
    (if c then acc ++ l else acc) = acc ++ (if c then l else []) := by
  by_cases h : c <;> simp [h]

/-- The conditional-append chain of `generate_recommendations` collects the
ten rule outputs in priority order and truncates to the first five. -/
theorem generate_recommendations_eq_rules (f : Features) (p : String) :
    generate_recommendations f p = ((ruleOutputs f p).flatten).take 5 := by
  simp only [generate_recommendations, ruleOutputs]
  simp only [ite_append_shared]
  simp only [List.flatten, List.append_nil, List.nil_append, List.append_assoc]

theorem ite_append_distrib {α : Type} (c : Prop) [Decidable c] (x y m : List α) :
    (if c then x else y) ++ m = if c then x ++ m else y ++ m := by
  by_cases h : c <;> simp [h]

theorem foldl_parts (f : Features) (acc : List String) :
    f.foldl (fun acc kv => if kv.2 == "" then acc else acc ++ [kv.1 ++ " " ++ kv.2]) acc
    = acc ++ (f.filter (fun kv => !(kv.2 == ""))).map (fun kv => kv.1 ++ " " ++ kv.2) := by
  induction f generalizing acc with
  | nil => simp
  | cons hd tl ih =>
    simp only [List.foldl_cons, List.filter_cons]
    by_cases h : hd.2 == ""
    · rw [if_pos h, if_neg (by simp [h])]
      exact ih acc
    · rw [if_neg h, if_pos (by simp [Bool.not_eq_true'] at h ⊢; exact h), ih,
        List.map_cons, List.append_assoc, List.singleton_append]

/-- The base text is the rendering of the non-empty slots, in order. -/
theorem baseText_eq (f : Features) :
    baseText f = joinSep " "
      ((f.filter (fun kv => !(kv.2 == ""))).map (fun kv => kv.1 ++ " " ++ kv.2)) := by
  unfold baseText
  rw [foldl_parts]
  rfl

/-- The cluster-table form of the hint pass agrees with the inline
or-chains of `features_to_text`. -/
theorem hintPhrases_eq_chain (t : String) :
    hintPhrases t =
      (if containsSub (lowerStr t) "sql" || containsSub (lowerStr t) "database"
          || containsSub (lowerStr t) "mysql" || containsSub (lowerStr t) "error" then
        ["database injection vulnerability"] else [])
      ++ (if containsSub (lowerStr t) "script" || containsSub (lowerStr t) "javascript"
          || containsSub (lowerStr t) "xss" then
        ["cross site scripting vulnerability"] else [])
      ++ (if containsSub (lowerStr t) "upload" || containsSub (lowerStr t) "file"
          || containsSub (lowerStr t) "path" then
        ["file inclusion vulnerability"] else [])
      ++ (if containsSub (lowerStr t) "admin" || containsSub (lowerStr t) "login"
          || containsSub (lowerStr t) "authentication" then
        ["authentication bypass vulnerability"] else []) := by
  unfold hintPhrases hintClusters
  simp only [List.filter_cons, List.filter_nil, List.any_cons, List.any_nil, Bool.or_false,
    apply_ite (List.map Prod.snd), List.map_cons, List.map_nil,
    List.append_assoc, ite_append_distrib, List.cons_append, List.nil_append,
    List.append_nil, Bool.or_assoc]

/-- `features_to_text` in terms of `baseText` and `hintPhrases`. -/
theorem features_to_text_hint (f : Features) :
    features_to_text f = (if (hintPhrases (baseText f)).isEmpty then baseText f
      else baseText f ++ " " ++ joinSep " " (hintPhrases (baseText f))) := by
  unfold features_to_text
  rw [hintPhrases_eq_chain]

theorem strData_append (a b : String) : (a ++ b).data = a.data ++ b.data := rfl

theorem infix_append_left (pre : List Char) {l m : List Char}
    (h : List.IsInfix l m) : List.IsInfix l (pre ++ m) := by
  obtain ⟨u, v, huv⟩ := h
  exact ⟨pre ++ u, v, by rw [← huv]; simp [List.append_assoc]⟩

theorem mem_joinSep_substr (sep : String) {s : String} :
    ∀ {l : List String}, s ∈ l → List.IsInfix s.data (joinSep sep l).data := by
  intro l h
  induction l with
  | nil => cases h
  | cons a tl ih =>
    cases tl with
    | nil =>
      rw [List.mem_singleton.mp h]
      exact List.infix_rfl
    | cons b rest =>
      rcases List.mem_cons.mp h with rfl | hmem
      · exact ⟨[], sep.data ++ (joinSep sep (b :: rest)).data, by
          rw [List.nil_append]
          exact (List.append_assoc _ _ _).symm⟩
      · exact infix_append_left (a.data ++ sep.data) (ih hmem)

theorem containsSub_true_iff (hay needle : String) :
    containsSub hay needle = true ↔ List.IsInfix needle.data hay.data := by
  simp [containsSub]

theorem argmaxStep_foldl_spec (p : List ℚ) : ∀ (l : List ℕ) (b : ℕ),
    (l.foldl (argmaxStep p) b = b ∨ l.foldl (argmaxStep p) b ∈ l)
  ∧ p.getD b 0 ≤ p.getD (l.foldl (argmaxStep p) b) 0
  ∧ ∀ x ∈ l, p.getD x 0 ≤ p.getD (l.foldl (argmaxStep p) b) 0 := by
  intro l
  induction l with
  | nil => exact fun b => ⟨Or.inl rfl, le_refl _, by simp⟩
  | cons i tl ih =>
    intro b
    obtain ⟨hmem, hb, hall⟩ := ih (argmaxStep p b i)
    have hstep : argmaxStep p b i = b ∨ argmaxStep p b i = i := by
      unfold argmaxStep
      split <;> simp
    have hbstep : p.getD b 0 ≤ p.getD (argmaxStep p b i) 0 := by
      unfold argmaxStep
      split
      · exact le_of_lt (by assumption)
      · exact le_refl _
    have histep : p.getD i 0 ≤ p.getD (argmaxStep p b i) 0 := by
      unfold argmaxStep
      split
      · exact le_refl _
      · exact not_lt.mp (by assumption)
    simp only [List.foldl_cons]
    refine ⟨?_, le_trans hbstep hb, ?_⟩
    · rcases hmem with hmem | hmem
      · rcases hstep with h | h
        · rw [hmem, h]
          exact Or.inl rfl
        · rw [hmem, h]
          exact Or.inr (List.mem_cons_self i tl)
      · exact Or.inr (List.mem_cons_of_mem i hmem)
    · intro x hx
      rcases List.mem_cons.mp hx with rfl | hx
      · exact le_trans histep hb
      · exact hall x hx

theorem argsortRel_total (p : List ℚ) : IsTotal ℕ (argsortRel p) := by
  refine ⟨fun i j => ?_⟩
  unfold argsortRel
  rcases lt_trichotomy (p.getD i 0) (p.getD j 0) with h | h | h
  · exact Or.inl (Or.inl h)
  · rcases le_total i j with hij | hij
    · exact Or.inl (Or.inr ⟨h, hij⟩)
    · exact Or.inr (Or.inr ⟨h.symm, hij⟩)
  · exact Or.inr (Or.inl h)

theorem argsortRel_trans (p : List ℚ) : IsTrans ℕ (argsortRel p) := by
  refine ⟨fun a b c hab hbc => ?_⟩
  unfold argsortRel at hab hbc ⊢
  rcases hab with h1 | ⟨e1, l1⟩ <;> rcases hbc with h2 | ⟨e2, l2⟩
  · exact Or.inl (lt_trans h1 h2)
  · exact Or.inl (lt_of_lt_of_le h1 (le_of_eq e2))
  · exact Or.inl (lt_of_le_of_lt (le_of_eq e1) h2)
  · exact Or.inr ⟨e1.trans e2, le_trans l1 l2⟩

theorem argsort_perm (p : List ℚ) : (argsort p).Perm (List.range p.length) :=
  List.perm_insertionSort _ _

theorem argsort_sorted (p : List ℚ) : (argsort p).Pairwise (argsortRel p) := by
  haveI := argsortRel_total p
  haveI := argsortRel_trans p
  exact List.sorted_insertionSort (argsortRel p) (List.range p.length)

theorem dedupFirst_step (ns : List String) (n : String) :
    dedupFirst (ns ++ [n]) = if (dedupFirst ns).contains n then dedupFirst ns
      else dedupFirst ns ++ [n] := by
  unfold dedupFirst
  rw [List.foldl_append]
  rfl

theorem map_pair_any_key (l : List String) (k c : String) :
    ((l.map (fun n => (n, c))).any (fun kv => kv.1 == k)) = l.contains k := by
  induction l with
  | nil => rfl
  | cons a tl ih =>
    by_cases h : a = k
    · simp [List.any_cons, List.contains_cons, ih, h]
    · simp [List.any_cons, List.contains_cons, ih, h, Ne.symm h]

theorem map_pair_overwrite (l : List String) (n c : String) :
    ((l.map (fun x => (x, c))).map (fun kv => if kv.1 == n then (n, c) else kv))
      = l.map (fun x => (x, c)) := by
  induction l with
  | nil => rfl
  | cons a tl ih =>
    simp only [List.map_cons, ih]
    by_cases h : a == n
    · have ha : a = n := by simpa using h
      simp [ha]
    · simp [h]

theorem dictInsert_payload (n : String) (ns : List String) :
    dictInsert n testPayload ((dedupFirst ns).map (fun x => (x, testPayload)))
      = (dedupFirst (ns ++ [n])).map (fun x => (x, testPayload)) := by
  rw [dedupFirst_step]
  unfold dictInsert
  rw [map_pair_any_key]
  by_cases h : (dedupFirst ns).contains n
  · rw [if_pos (by simpa using h), if_pos h, map_pair_overwrite]
  · rw [if_neg (by simpa using h), if_neg h, List.map_append]
    rfl

theorem formParams_fold (fields : List XField) : ∀ (ns : List String),
    fields.foldl formStep ((dedupFirst ns).map (fun x => (x, testPayload)))
    = (dedupFirst (ns ++ ((fields.filter
        (fun fd => fd.kind == FieldKind.input)).filterMap namedName))).map
        (fun x => (x, testPayload)) := by
  induction fields with
  | nil => intro ns; simp
  | cons fd tl ih =>
    intro ns
    obtain ⟨k, ft, nm⟩ := fd
    simp only [List.foldl_cons, List.filter_cons]
    cases k with
    | textarea =>
      rw [show formStep ((dedupFirst ns).map (fun x => (x, testPayload)))
        ⟨FieldKind.textarea, ft, nm⟩ = (dedupFirst ns).map (fun x => (x, testPayload)) from rfl]
      simpa using ih ns
    | input =>
      cases nm with
      | none =>
        rw [show formStep ((dedupFirst ns).map (fun x => (x, testPayload)))
          ⟨FieldKind.input, ft, none⟩ = (dedupFirst ns).map (fun x => (x, testPayload)) from rfl]
        have hskip : namedName ⟨FieldKind.input, ft, none⟩ = none := rfl
        simpa [List.filterMap_cons, hskip] using ih ns
      | some n =>
        rw [show formStep ((dedupFirst ns).map (fun x => (x, testPayload)))
          ⟨FieldKind.input, ft, some n⟩
          = if n = "" then (dedupFirst ns).map (fun x => (x, testPayload))
            else dictInsert n testPayload ((dedupFirst ns).map (fun x => (x, testPayload)))
          from rfl]
        by_cases hn : n = ""
        · rw [if_pos hn]
          have hskip : namedName ⟨FieldKind.input, ft, some n⟩ = none := by
            unfold namedName
            simp [hn]
          simpa [List.filterMap_cons, hskip] using ih ns
        · rw [if_neg hn, dictInsert_payload, ih (ns ++ [n])]
          have hkeep : namedName ⟨FieldKind.input, ft, some n⟩ = some n := by
            unfold namedName
            simp [hn]
          simp [List.filterMap_cons, hkeep, List.append_assoc]

/-- `formParams` fills exactly the truthy-named `<input>` children: each
distinct name once (Python dict semantics), in first-occurrence order, all
mapped to the payload. -/
theorem formParams_eq (f : XForm) :
    formParams f = (dedupFirst (namedInputNames f)).map (fun n => (n, testPayload)) := by
  unfold formParams namedInputNames
  have := formParams_fold f.fields []
  simpa [dedupFirst] using this

/-- The active layer under an always-succeeding submission oracle: each
form with a non-empty params dict is submitted once with its declared
method and action, and yields the reflected-XSS finding exactly when the
response echoes the payload. -/
theorem activeScan_ok (url : String) (rm : String → String → Bool)
    (respFn : Bool → String → List (String × String) → String)
    (fe : String → Except String String) :
    ∀ forms : List XForm,
      activeScan url ⟨rm, fun b a ps => Except.ok (respFn b a ps), fe⟩ forms
      = Except.ok (forms.flatMap (fun f =>
          if (formParams f).isEmpty then []
          else if containsSub (respFn (lowerStr (f.method.getD "get") == "post")
              (f.action.getD url) (formParams f)) testPayload then
            ["Potential reflected XSS detected in form (" ++ f.action.getD url ++ ")"]
          else [])) := by
  intro forms
  induction forms with
  | nil => rfl
  | cons f rest ih =>
    unfold activeScan
    simp only [List.flatMap_cons]
    by_cases hp : (formParams f).isEmpty
    · rw [if_pos hp, ih, if_pos hp, List.nil_append]
    · rw [if_neg hp, ih, if_neg hp]

/-- The active layer under an always-failing submission oracle aborts with
the exception as soon as any form has a non-empty params dict. -/
theorem activeScan_err (url : String) (rm : String → String → Bool)
    (m : String) (fe : String → Except String String) :
    ∀ forms : List XForm, (∃ f ∈ forms, (formParams f).isEmpty = false) →
      activeScan url ⟨rm, fun _ _ _ => Except.error m, fe⟩ forms = Except.error m := by
  intro forms
  induction forms with
  | nil => rintro ⟨f, hf, _⟩; cases hf
  | cons f rest ih =>
    rintro ⟨g, hg, hgp⟩
    unfold activeScan
    by_cases hp : (formParams f).isEmpty
    · rw [if_pos hp]
      rcases List.mem_cons.mp hg with rfl | hg
      · rw [hp] at hgp; cases hgp
      · exact ih ⟨g, hg, hgp⟩
    · rw [if_neg hp]

theorem append_ne_empty_left (a b : String) (h : a ≠ "") : a ++ b ≠ "" := by
  intro hc
  apply h
  have hd : a.data ++ b.data = [] := congrArg String.data hc
  have h2 := List.append_eq_nil.mp hd
  cases a
  simp_all

theorem joinSep_ne_empty (sep : String) (l : List String) (hl : l ≠ [])
    (he : ∀ s ∈ l, s ≠ "") : joinSep sep l ≠ "" := by
  cases l with
  | nil => exact absurd rfl hl
  | cons a tl =>
    cases tl with
    | nil => exact he a (by simp)
    | cons b rest =>
      exact append_ne_empty_left _ _ (append_ne_empty_left _ _ (he a (by simp)))

theorem check_xss_core_shape (url : String) (pg : XPage) (env : XssEnv) (s : String)
    (h : check_xss_core url pg env = Except.ok s) :
    s = "No XSS issues detected"
      ∨ ∃ t, s = "Possible XSS risk(s) detected: " ++ t := by
  unfold check_xss_core at h
  repeat' split at h
  all_goals try cases h
  all_goals simp only [] at h
  all_goals repeat' split at h
  all_goals try cases h
  all_goals try exact Or.inl rfl
  all_goals try exact Or.inr ⟨_, rfl⟩

theorem check_xss_ne_empty (url : String) (page : Except String XPage)
    (env : XssEnv) : check_xss url page env ≠ "" := by
  cases page with
  | error e =>
    simp only [check_xss]
    exact append_ne_empty_left "XSS check error: " e (by decide)
  | ok pg =>
    cases hc : check_xss_core url pg env with
    | error e =>
      simp only [check_xss, hc]
      exact append_ne_empty_left "XSS check error: " e (by decide)
    | ok s =>
      simp only [check_xss, hc]
      rcases check_xss_core_shape url pg env s hc with rfl | ⟨t, rfl⟩
      · decide
      · exact append_ne_empty_left "Possible XSS risk(s) detected: " t (by decide)
theorem mem_ite_singleton {c : Prop} [Decidable c] {x a : String}
    (h : x ∈ (if c then [a] else [])) : x = a := by
  split at h
  · exact List.mem_singleton.mp h
  · cases h

theorem sslIssues_elems_ne_empty (days : Int) (ciph ver : Option String) :
    ∀ x ∈ sslIssues days ciph ver, x ≠ "" := by
  intro x hx
  unfold sslIssues at hx
  rcases List.mem_append.mp hx with hx | hx
  · rcases List.mem_append.mp hx with hx | hx
    · have hx2 := mem_ite_singleton hx
      subst hx2
      exact append_ne_empty_left _ " days"
        (append_ne_empty_left "SSL certificate expires in " _ (by decide))
    · cases ciph with
      | none => cases hx
      | some cs =>
        have hx1 : x ∈ (if (containsSub cs "RC4" || containsSub cs "3DES") = true then
            ["Weak cipher detected: " ++ cs] else []) := hx
        have hx2 := mem_ite_singleton hx1
        subst hx2
        exact append_ne_empty_left "Weak cipher detected: " cs (by decide)
  · cases ver with
    | none => cases hx
    | some v =>
      have hx1 : x ∈ (if (!(v == "TLSv1.2") && !(v == "TLSv1.3")) = true then
          ["Insecure TLS version: " ++ v] else []) := hx
      have hx2 := mem_ite_singleton hx1
      subst hx2
      exact append_ne_empty_left "Insecure TLS version: " v (by decide)

theorem check_ssl_ne_empty (env : SslEnv) : check_ssl env ≠ "" := by
  obtain ⟨conn, pe⟩ := env
  cases conn with
  | error f =>
    cases f with
    | timeout m =>
      show "SSL check timed out (connection took too long)" ≠ ""
      decide
    | other m =>
      show "SSL check error: " ++ m ≠ ""
      exact append_ne_empty_left "SSL check error: " m (by decide)
  | ok c =>
    obtain ⟨cert, ciph, ver⟩ := c
    cases cert with
    | none =>
      show "SSL certificate data unavailable" ≠ ""
      decide
    | some ce =>
      obtain ⟨na⟩ := ce
      cases na with
      | none =>
        show "SSL certificate expiration data missing" ≠ ""
        decide
      | some s =>
        cases hpe : pe s with
        | none =>
          simp only [check_ssl, hpe]
          exact append_ne_empty_left "Invalid expiration date format: " s (by decide)
        | some days =>
          simp only [check_ssl, hpe]
          by_cases hI : (sslIssues days ciph ver).isEmpty
          · rw [if_pos hI]
            decide
          · rw [if_neg hI]
            apply joinSep_ne_empty
            · intro hnil
              rw [hnil] at hI
              exact hI rfl
            · exact sslIssues_elems_ne_empty days ciph ver

theorem check_script_issues_ne_empty (url : String) (page : Except String ScriptPage)
    (rm : String → String → Bool) : check_script_issues url page rm ≠ "" := by
  cases page with
  | error e =>
    simp only [check_script_issues]
    exact append_ne_empty_left "Script issues check error: " e (by decide)
  | ok pg =>
    simp only [check_script_issues]
    by_cases hI : (scriptIndicators url pg rm).isEmpty
    · rw [if_pos hI]
      decide
    · rw [if_neg hI]
      apply joinSep_ne_empty
      · intro hnil
        rw [hnil] at hI
        exact hI rfl
      · intro x hx
        unfold scriptIndicators at hx
        simp only [List.mem_append] at hx
        rcases hx with hx | hx
        · simp only [List.mem_map] at hx
          obtain ⟨p, _, rfl⟩ := hx
          exact append_ne_empty_left "Script issue pattern detected: " p (by decide)
        · split at hx
          · simp only [List.mem_map] at hx
            obtain ⟨p, _, rfl⟩ := hx
            exact append_ne_empty_left "Mixed content: HTTP script " p (by decide)
          · cases hx
theorem check_xss_clean (url c b : String) (hb : containsSub b testPayload = false) :
    check_xss url (Except.ok ⟨c, [], [], []⟩)
      ⟨fun _ _ => false, fun _ _ _ => Except.ok b, fun _ => Except.ok b⟩
      = "No XSS issues detected" := by
  simp [check_xss, check_xss_core, activeScan, hb]

theorem check_ssl_clean (s ciph v : String) (days : Int)
    (hd : 30 ≤ days) (h1 : containsSub ciph "RC4" = false)
    (h2 : containsSub ciph "3DES" = false)
    (hv : v = "TLSv1.2" ∨ v = "TLSv1.3") :
    check_ssl ⟨Except.ok ⟨some ⟨some s⟩, some ciph, some v⟩, fun _ => some days⟩
      = "No SSL issues detected" := by
  rcases hv with rfl | rfl <;>
    simp [check_ssl, sslIssues, not_lt.mpr hd, h1, h2]

theorem check_script_issues_clean (url c : String) (srcs : List String)
    (h : ∀ s ∈ srcs, startsWith s "http:" = false) :
    check_script_issues url (Except.ok ⟨c, srcs⟩) (fun _ _ => false)
      = "No script issues detected" := by
  have hf : srcs.filter (fun s => startsWith s "http:") = [] :=
    List.filter_eq_nil_iff.mpr (fun a ha => by simp [h a ha])
  by_cases hu : startsWith url "https:" <;>
    simp [check_script_issues, scriptIndicators, hu, hf]

/-! ## Claim theorems -/

/-- If a slot with the given name is non-empty, the lower-cased base text
contains any lower-case trigger word that prefixes the slot name. -/
theorem baseText_contains_of_slot (f : Features) (name value trig : String)
    (hmem : (name, value) ∈ f) (hv : value ≠ "")
    (hpre : List.IsPrefix trig.data name.data)
    (hfix : trig.data.map lowerChar = trig.data) :
    containsSub (lowerStr (baseText f)) trig = true := by
  have hpart : (name ++ " " ++ value) ∈
      (f.filter (fun kv => !(kv.2 == ""))).map (fun kv => kv.1 ++ " " ++ kv.2) :=
    List.mem_map_of_mem _ (List.mem_filter.mpr ⟨hmem, by simp [hv]⟩)
  have hinfix1 : List.IsInfix (name ++ " " ++ value).data (baseText f).data := by
    rw [baseText_eq]
    exact mem_joinSep_substr " " hpart
  have hpre2 : List.IsPrefix name.data (name ++ " " ++ value).data :=
    ⟨" ".data ++ value.data, (List.append_assoc _ _ _).symm⟩
  have hinfix0 : List.IsInfix trig.data (name ++ " " ++ value).data :=
    hpre.isInfix.trans hpre2.isInfix
  have hall := (hinfix0.trans hinfix1).map lowerChar
  rw [hfix] at hall
  exact (containsSub_true_iff _ _).mpr hall

/-- A phrase the hint pass selected is a substring of the final text. -/
theorem text_contains_hint (f : Features) (ph : String)
    (hph : ph ∈ hintPhrases (baseText f)) :
    containsSub (features_to_text f) ph = true := by
  rw [features_to_text_hint]
  have hne : (hintPhrases (baseText f)).isEmpty = false := by
    cases hl : hintPhrases (baseText f) with
    | nil => rw [hl] at hph; cases hph
    | cons a tl => rfl
  rw [if_neg (by simp [hne])]
  rw [containsSub_true_iff]
  exact infix_append_left (baseText f ++ " ").data (mem_joinSep_substr " " hph)

/-- C1 counterexample: at the tied probability vector
`[1/2, 1/2, 1/10, 1/10]` over labels A,B,C,D the code's top-3 list is
`[(B,1/2), (A,1/2), (D,1/10)]` — equal probabilities are ordered by
descending label index, because reversing a stable ascending argsort flips
the tie order — not the ascending-tie list `[(A,1/2), (B,1/2), (C,1/10)]`
the claim prescribes. -/
theorem c1_top3_tiebreak_counterexample :
    (predict_vulnerability ["A", "B", "C", "D"]
      [mkRat 1 2, mkRat 1 2, mkRat 1 10, mkRat 1 10]).top_3_predictions
      = [("B", mkRat 1 2), ("A", mkRat 1 2), ("D", mkRat 1 10)]
  ∧ (predict_vulnerability ["A", "B", "C", "D"]
      [mkRat 1 2, mkRat 1 2, mkRat 1 10, mkRat 1 10]).top_3_predictions
      ≠ [("A", mkRat 1 2), ("B", mkRat 1 2), ("C", mkRat 1 10)] := by
  decide

/-- C1 (amended): for a probability vector over at least three labels the
top-3 list is sorted by probability descending with ties broken by
DESCENDING label index, its indices are unique and in range, the predicted
label is the argmax label (first index attaining the maximum) and the
confidence is its probability; on the claim's concrete no-tie vector
`[0.10, 0.05, 0.70, 0.15]` the result is exactly as the claim states. -/
theorem c1_top3_selection_amended (labels : List String) (p : List ℚ)
    (h3 : 3 ≤ p.length) :
    (top3Indices p).length = 3
  ∧ (top3Indices p).Nodup
  ∧ (top3Indices p).Pairwise
      (fun i j => p.getD j 0 < p.getD i 0 ∨ (p.getD i 0 = p.getD j 0 ∧ j < i))
  ∧ (∀ i ∈ top3Indices p, i < p.length)
  ∧ (predict_vulnerability labels p).predicted_vulnerability
      = labels.getD (argmaxIdx p) "Unknown"
  ∧ (predict_vulnerability labels p).confidence = p.getD (argmaxIdx p) 0
  ∧ argmaxIdx p < p.length
  ∧ (∀ j < p.length, p.getD j 0 ≤ p.getD (argmaxIdx p) 0)
  ∧ (predict_vulnerability labels p).top_3_predictions
      = (top3Indices p).map (fun i => (labels.getD i ("Class_" ++ toString i), p.getD i 0))
  ∧ (predict_vulnerability ["A", "B", "C", "D"]
        [mkRat 1 10, mkRat 1 20, mkRat 7 10, mkRat 3 20]).predicted_vulnerability = "C"
  ∧ (predict_vulnerability ["A", "B", "C", "D"]
        [mkRat 1 10, mkRat 1 20, mkRat 7 10, mkRat 3 20]).confidence = mkRat 7 10
  ∧ (predict_vulnerability ["A", "B", "C", "D"]
        [mkRat 1 10, mkRat 1 20, mkRat 7 10, mkRat 3 20]).top_3_predictions
      = [("C", mkRat 7 10), ("D", mkRat 3 20), ("A", mkRat 1 10)] := by
  have hperm := argsort_perm p
  have hlen : (argsort p).length = p.length := by
    rw [hperm.length_eq, List.length_range]
  have hnd : (argsort p).Nodup := hperm.nodup_iff.mpr (List.nodup_range _)
  have hnd3 : (top3Indices p).Nodup :=
    List.nodup_reverse.mpr (hnd.sublist (List.drop_sublist _ _))
  have hsorted := argsort_sorted p
  have hdrop : ((argsort p).drop (p.length - 3)).Pairwise (argsortRel p) :=
    hsorted.sublist (List.drop_sublist _ _)
  have hpw : (top3Indices p).Pairwise (fun i j => argsortRel p j i) :=
    List.pairwise_reverse.mpr hdrop
  obtain ⟨hm, _, hall⟩ := argmaxStep_foldl_spec p (List.range p.length) 0
  refine ⟨?_, hnd3, ?_, ?_, rfl, rfl, ?_, ?_, rfl, by decide, by decide, by decide⟩
  · simp only [top3Indices, List.length_reverse, List.length_drop, hlen]
    omega
  · refine (hpw.and hnd3).imp ?_
    rintro i j ⟨hr, hij⟩
    rcases hr with h | ⟨e, hle⟩
    · exact Or.inl h
    · exact Or.inr ⟨e.symm, lt_of_le_of_ne hle (Ne.symm hij)⟩
  · intro i hi
    have h1 : i ∈ (argsort p).drop (p.length - 3) := List.mem_reverse.mp hi
    have h2 : i ∈ argsort p := (List.drop_sublist _ _).subset h1
    exact List.mem_range.mp (hperm.mem_iff.mp h2)
  · rcases hm with hm | hm
    · rw [argmaxIdx, hm]
      omega
    · exact List.mem_range.mp hm
  · intro j hj
    exact hall j (List.mem_range.mpr hj)

/-- Witness for C1 (amended) at the claim's concrete vector. -/
theorem c1_top3_selection_amended_witness :
    (3 ≤ ([mkRat 1 10, mkRat 1 20, mkRat 7 10, mkRat 3 20] : List ℚ).length)
  ∧ (top3Indices [mkRat 1 10, mkRat 1 20, mkRat 7 10, mkRat 3 20]).length = 3 :=
  ⟨by decide,
   (c1_top3_selection_amended ["A", "B", "C", "D"]
      [mkRat 1 10, mkRat 1 20, mkRat 7 10, mkRat 3 20] (by decide)).1⟩

/-- C8: the text encoder is deterministic, and its output matches the
spec-side rendering `specEncode`: non-empty slots rendered as
`"<slot-name> <slot-value>"` in the fixed slot order, empty slots skipped,
pairs joined with single spaces, then the hint pass appended. -/
theorem c8_encoder_deterministic_stable (f : Features) :
    features_to_text f = features_to_text f ∧ features_to_text f = specEncode f := by
  refine ⟨rfl, ?_⟩
  rw [features_to_text_hint]
  unfold specEncode specEncodeBase
  rw [← baseText_eq]

/-- C4: the second pass of the text encoder appends each of the four hint
phrases at most once, in the fixed cluster order, and appends a cluster's
phrase exactly when the lower-cased base text contains at least one of the
cluster's trigger words. -/
theorem c4_hint_pass_once_ordered (f : Features) :
    (features_to_text f = (if (hintPhrases (baseText f)).isEmpty then baseText f
      else baseText f ++ " " ++ joinSep " " (hintPhrases (baseText f))))
  ∧ List.Sublist (hintPhrases (baseText f)) (hintClusters.map Prod.snd)
  ∧ (∀ ph, (hintPhrases (baseText f)).count ph ≤ 1)
  ∧ ∀ cl ∈ hintClusters,
      (cl.2 ∈ hintPhrases (baseText f)
        ↔ ∃ w ∈ cl.1, containsSub (lowerStr (baseText f)) w = true) := by
  refine ⟨features_to_text_hint f, ?_, ?_, ?_⟩
  · exact List.Sublist.map Prod.snd (List.filter_sublist hintClusters)
  · intro ph
    have nd : (hintClusters.map Prod.snd).Nodup := by decide
    exact le_trans
      (List.Sublist.count_le (List.Sublist.map Prod.snd (List.filter_sublist hintClusters)) ph)
      (List.nodup_iff_count_le_one.mp nd ph)
  · intro cl hcl
    simp only [hintClusters, List.mem_cons, List.not_mem_nil, or_false] at hcl
    rcases hcl with rfl | rfl | rfl | rfl <;>
      simp [hintPhrases, List.mem_filter, hintClusters, List.any_eq_true]

/-- Witness for C4 at the injection cluster and a concrete record. -/
theorem c4_hint_pass_once_ordered_witness :
    "database injection vulnerability" ∈ hintPhrases (baseText [("errors", "boom")])
      ↔ ∃ w ∈ (["sql", "database", "mysql", "error"] : List String),
          containsSub (lowerStr (baseText [("errors", "boom")])) w = true :=
  (c4_hint_pass_once_ordered [("errors", "boom")]).2.2.2
    (["sql", "database", "mysql", "error"], "database injection vulnerability")
    (by decide)

/-- C3: `assess_risk_level` maps confidence to a risk level by fixed
half-open thresholds — `[0, 0.3)` to LOW, `[0.3, 0.6)` to MEDIUM,
`[0.6, 0.8)` to HIGH, `[0.8, 1]` to CRITICAL — with the listed boundary
values, and ignores the predicted-label argument. -/
theorem c3_assess_risk_level_thresholds (c : ℚ) (lbl lbl2 : String) :
    ((0 ≤ c → c < 3/10 → assess_risk_level c lbl = "LOW")
  ∧ (3/10 ≤ c → c < 6/10 → assess_risk_level c lbl = "MEDIUM")
  ∧ (6/10 ≤ c → c < 8/10 → assess_risk_level c lbl = "HIGH")
  ∧ (8/10 ≤ c → c ≤ 1 → assess_risk_level c lbl = "CRITICAL"))
  ∧ assess_risk_level c lbl = assess_risk_level c lbl2
  ∧ assess_risk_level 0 lbl = "LOW" ∧ assess_risk_level (29/100) lbl = "LOW"
  ∧ assess_risk_level (3/10) lbl = "MEDIUM" ∧ assess_risk_level (59/100) lbl = "MEDIUM"
  ∧ assess_risk_level (6/10) lbl = "HIGH" ∧ assess_risk_level (79/100) lbl = "HIGH"
  ∧ assess_risk_level (8/10) lbl = "CRITICAL" ∧ assess_risk_level 1 lbl = "CRITICAL" := by
  refine ⟨⟨fun _ h2 => ?_, fun h1 h2 => ?_, fun h1 h2 => ?_, fun h1 _ => ?_⟩,
    rfl, ?_, ?_, ?_, ?_, ?_, ?_, ?_, ?_⟩ <;>
    unfold assess_risk_level
  · rw [if_pos h2]
  · rw [if_neg (not_lt.mpr h1), if_pos h2]
  · rw [if_neg (not_lt.mpr (by linarith)), if_neg (not_lt.mpr h1), if_pos h2]
  · rw [if_neg (not_lt.mpr (by linarith)), if_neg (not_lt.mpr (by linarith)),
      if_neg (not_lt.mpr h1)]
  all_goals norm_num

/-- Witness for C3 at concrete confidences in each band. -/
theorem c3_assess_risk_level_thresholds_witness :
    assess_risk_level (15/100) "x" = "LOW"
  ∧ assess_risk_level (45/100) "x" = "MEDIUM"
  ∧ assess_risk_level (7/10) "x" = "HIGH"
  ∧ assess_risk_level (9/10) "x" = "CRITICAL" :=
  ⟨(c3_assess_risk_level_thresholds (15/100) "x" "x").1.1 (by norm_num) (by norm_num),
   (c3_assess_risk_level_thresholds (45/100) "x" "x").1.2.1 (by norm_num) (by norm_num),
   (c3_assess_risk_level_thresholds (7/10) "x" "x").1.2.2.1 (by norm_num) (by norm_num),
   (c3_assess_risk_level_thresholds (9/10) "x" "x").1.2.2.2 (by norm_num) (by norm_num)⟩

/-- C2: `generate_recommendations` returns at most five strings, collected
by evaluating the ten rules in the fixed priority order and truncating to
the first five; for a feature dict with empty `security_headers`, empty
`headers`, empty `forms` and predicted label "SQL Injection", the first
entry is the header-hardening recommendation and the next three are the
three injection-specific recommendations. -/
theorem c2_generate_recommendations_rules (f : Features) (p : String)
    (u c t l e x ss sc : String) :
    (generate_recommendations f p).length ≤ 5
  ∧ generate_recommendations f p = ((ruleOutputs f p).flatten).take 5
  ∧ (generate_recommendations (mkFeatures u "" c t "" l e "" x ss sc)
      "SQL Injection").take 4 =
      ["Implement security headers (X-Frame-Options, CSP, HSTS)",
       "Use parameterized queries to prevent SQL injection",
       "Implement input validation and sanitization",
       "Use ORM frameworks with built-in protection"] := by
  refine ⟨?_, generate_recommendations_eq_rules f p, ?_⟩
  · rw [generate_recommendations_eq_rules]
    exact List.length_take_le 5 _
  · rw [generate_recommendations_eq_rules, List.take_take]
    norm_num
    have g1 : getF (mkFeatures u "" c t "" l e "" x ss sc) "security_headers" = "" := rfl
    have g2 : getF (mkFeatures u "" c t "" l e "" x ss sc) "headers" = "" := rfl
    have g3 : getF (mkFeatures u "" c t "" l e "" x ss sc) "forms" = "" := rfl
    have e1 : containsSub (lowerStr "") "server" = false := by decide
    have e2 : containsSub (lowerStr "") "form" = false := by decide
    have e3 : containsSub (lowerStr "SQL Injection") "injection" = true := by decide
    have e4 : containsSub (lowerStr "SQL Injection") "xss" = false := by decide
    have e5 : containsSub (lowerStr "SQL Injection") "scripting" = false := by decide
    have e6 : containsSub (lowerStr "SQL Injection") "authentication" = false := by decide
    have e7 : containsSub (lowerStr "SQL Injection") "access" = false := by decide
    have e8 : containsSub (lowerStr "SQL Injection") "buffer" = false := by decide
    have e9 : containsSub (lowerStr "SQL Injection") "overflow" = false := by decide
    simp only [ruleOutputs, g1, g2, g3, e1, e2, e3, e4, e5, e6, e7, e8, e9]
    simp [List.take]

/-- C5 counterexample: a page whose single form contains one NAMED
TEXTAREA and no inputs, with a submission oracle that would echo the
payload verbatim in every response.  The claim mandates filling the
textarea, submitting the form, and recording a reflected-XSS finding for
its action; the code iterates `form.find_all('input')` only, collects no
params, never submits, and returns the no-issues sentinel. -/
theorem c5_textarea_counterexample :
    check_xss "http://t"
      (Except.ok ⟨"", [], [],
        [⟨some "/post", some "post", [⟨FieldKind.textarea, none, some "comment"⟩]⟩]⟩)
      ⟨fun _ _ => false, fun _ _ _ => Except.ok testPayload, fun _ => Except.ok ""⟩
      = "No XSS issues detected" := by
  decide

/-- C5 (amended): in the active layer only the `<input>` children with a
truthy name are filled — each distinct name once, mapped to the fixed
payload; textareas are never filled; a form is submitted with its declared
method and action (defaults GET and the probed URL) only when that params
dict is non-empty; and when every submission succeeds, a reflected-XSS
finding naming the form's action is recorded exactly for the submitted
forms whose response body contains the payload verbatim. -/
theorem c5_active_layer_amended (url : String) (rm : String → String → Bool)
    (respFn : Bool → String → List (String × String) → String)
    (fe : String → Except String String) (forms : List XForm) (f : XForm) :
    formParams f = (dedupFirst (namedInputNames f)).map (fun n => (n, testPayload))
  ∧ activeScan url ⟨rm, fun b a ps => Except.ok (respFn b a ps), fe⟩ forms
      = Except.ok (forms.flatMap (fun g =>
          if (formParams g).isEmpty then []
          else if containsSub (respFn (lowerStr (g.method.getD "get") == "post")
              (g.action.getD url) (formParams g)) testPayload then
            ["Potential reflected XSS detected in form (" ++ g.action.getD url ++ ")"]
          else [])) :=
  ⟨formParams_eq f, activeScan_ok url rm respFn fe forms⟩

/-- C10: a fault in the active reflection layer — a failing form
submission, or the failing final `?q=` request — makes `check_xss` return
only the degraded diagnostic string, discarding every indicator the static
and DOM layers had collected, because the whole probe body sits in one
exception handler. -/
theorem c10_active_fault_discards_indicators (url : String) (pg : XPage)
    (rm : String → String → Bool)
    (respFn : Bool → String → List (String × String) → String)
    (fe : String → Except String String) (m : String) :
    check_xss url (Except.ok pg)
      ⟨rm, fun b a ps => Except.ok (respFn b a ps), fun _ => Except.error m⟩
      = "XSS check error: " ++ m
  ∧ ((∃ f ∈ pg.forms, (formParams f).isEmpty = false) →
      check_xss url (Except.ok pg) ⟨rm, fun _ _ _ => Except.error m, fe⟩
        = "XSS check error: " ++ m) := by
  constructor
  · simp only [check_xss, check_xss_core]
    rw [activeScan_ok url rm respFn (fun _ => Except.error m) pg.forms]
  · intro hex
    simp only [check_xss, check_xss_core]
    rw [activeScan_err url rm m fe pg.forms hex]

/-- Witness for C10: a failing submission on a page with one named-input
form, discarding the otherwise-clean result. -/
theorem c10_active_fault_discards_indicators_witness :
    check_xss "u"
      (Except.ok ⟨"", [], [], [⟨some "/a", some "get",
        [⟨FieldKind.input, some "text", some "q"⟩]⟩]⟩)
      ⟨fun _ _ => false, fun _ _ _ => Except.error "boom", fun _ => Except.ok ""⟩
      = "XSS check error: " ++ "boom" :=
  (c10_active_fault_discards_indicators "u"
    ⟨"", [], [], [⟨some "/a", some "get", [⟨FieldKind.input, some "text", some "q"⟩]⟩]⟩
    (fun _ _ => false) (fun _ _ _ => "") (fun _ => Except.ok "") "boom").2 (by decide)

/-- C6: the extractor is a total function (it never raises); every result
carries exactly the fixed eight slots in order, and on a network or parse
fault the `errors` slot records the descriptive message while the slots
whose derivation depended on the failed step stay empty (`url_analysis`
survives a fetch fault; the header slots additionally survive a later
parse fault). -/
theorem c6_extract_total_fixed_slots (rm : String → String → Bool)
    (input : ExtractInput) (up : UrlParts) (m : String)
    (hs : List (String × String)) :
    (extract_website_features input rm).map Prod.fst
      = ["url_analysis", "headers", "content", "technologies", "forms", "links",
         "errors", "security_headers"]
  ∧ extract_website_features (ExtractInput.reqFail up m) rm
      = [("url_analysis", urlAnalysisText up), ("headers", ""), ("content", ""),
         ("technologies", ""), ("forms", ""), ("links", ""),
         ("errors", "connection error " ++ m), ("security_headers", "")]
  ∧ extract_website_features (ExtractInput.parseFail up hs m) rm
      = [("url_analysis", urlAnalysisText up), ("headers", headersText hs),
         ("content", ""), ("technologies", ""), ("forms", ""), ("links", ""),
         ("errors", "analysis error " ++ m),
         ("security_headers", securityHeadersText hs)] := by
  refine ⟨?_, ?_, ?_⟩
  · cases input <;> simp [extract_website_features, setSlot, initFeatures]
  · simp [extract_website_features, setSlot, initFeatures]
  · simp [extract_website_features, setSlot, initFeatures]

/-- C9: because the hint pass scans the combined text including rendered
slot names, a non-empty `xss_check` or `script_check` slot forces the
cross-site-scripting hint phrase into the encoded text, and a non-empty
`errors` slot forces the database-injection hint phrase, independently of
the slot values. -/
theorem c9_slot_name_triggers (u h c t fo l e s x ss sc : String) :
    (x ≠ "" → containsSub (features_to_text (mkFeatures u h c t fo l e s x ss sc))
      "cross site scripting vulnerability" = true)
  ∧ (sc ≠ "" → containsSub (features_to_text (mkFeatures u h c t fo l e s x ss sc))
      "cross site scripting vulnerability" = true)
  ∧ (e ≠ "" → containsSub (features_to_text (mkFeatures u h c t fo l e s x ss sc))
      "database injection vulnerability" = true) := by
  refine ⟨fun hx => ?_, fun hsc => ?_, fun he => ?_⟩
  · apply text_contains_hint
    have htrig := baseText_contains_of_slot (mkFeatures u h c t fo l e s x ss sc)
      "xss_check" x "xss" (by simp [mkFeatures]) hx (by decide) (by decide)
    have hclmem : ((["script", "javascript", "xss"],
        "cross site scripting vulnerability") : List String × String) ∈ hintClusters := by
      decide
    have hcond : ((["script", "javascript", "xss"],
        "cross site scripting vulnerability") : List String × String).1.any
        (fun w => containsSub (lowerStr (baseText (mkFeatures u h c t fo l e s x ss sc))) w)
        = true := by simp [htrig]
    unfold hintPhrases
    exact List.mem_map_of_mem Prod.snd (List.mem_filter.mpr ⟨hclmem, hcond⟩)
  · apply text_contains_hint
    have htrig := baseText_contains_of_slot (mkFeatures u h c t fo l e s x ss sc)
      "script_check" sc "script" (by simp [mkFeatures]) hsc (by decide) (by decide)
    have hclmem : ((["script", "javascript", "xss"],
        "cross site scripting vulnerability") : List String × String) ∈ hintClusters := by
      decide
    have hcond : ((["script", "javascript", "xss"],
        "cross site scripting vulnerability") : List String × String).1.any
        (fun w => containsSub (lowerStr (baseText (mkFeatures u h c t fo l e s x ss sc))) w)
        = true := by simp [htrig]
    unfold hintPhrases
    exact List.mem_map_of_mem Prod.snd (List.mem_filter.mpr ⟨hclmem, hcond⟩)
  · apply text_contains_hint
    have htrig := baseText_contains_of_slot (mkFeatures u h c t fo l e s x ss sc)
      "errors" e "error" (by simp [mkFeatures]) he (by decide) (by decide)
    have hclmem : ((["sql", "database", "mysql", "error"],
        "database injection vulnerability") : List String × String) ∈ hintClusters := by
      decide
    have hcond : ((["sql", "database", "mysql", "error"],
        "database injection vulnerability") : List String × String).1.any
        (fun w => containsSub (lowerStr (baseText (mkFeatures u h c t fo l e s x ss sc))) w)
        = true := by simp [htrig]
    unfold hintPhrases
    exact List.mem_map_of_mem Prod.snd (List.mem_filter.mpr ⟨hclmem, hcond⟩)

/-- C7: each of the three probes returns a non-empty string on every
input, and on an input with no finding and no fault each returns its
canonical no-issues-detected sentinel. -/
theorem c7_probe_outputs (urlX : String) (pageX : Except String XPage)
    (envX : XssEnv) (envS : SslEnv) (urlP : String)
    (pageP : Except String ScriptPage) (rmP : String → String → Bool)
    (url c b s ciph v urlS cS : String) (days : Int) (srcs : List String) :
    check_xss urlX pageX envX ≠ ""
  ∧ check_ssl envS ≠ ""
  ∧ check_script_issues urlP pageP rmP ≠ ""
  ∧ (containsSub b testPayload = false →
      check_xss url (Except.ok ⟨c, [], [], []⟩)
        ⟨fun _ _ => false, fun _ _ _ => Except.ok b, fun _ => Except.ok b⟩
        = "No XSS issues detected")
  ∧ (30 ≤ days → containsSub ciph "RC4" = false → containsSub ciph "3DES" = false →
      (v = "TLSv1.2" ∨ v = "TLSv1.3") →
      check_ssl ⟨Except.ok ⟨some ⟨some s⟩, some ciph, some v⟩, fun _ => some days⟩
        = "No SSL issues detected")
  ∧ ((∀ x ∈ srcs, startsWith x "http:" = false) →
      check_script_issues urlS (Except.ok ⟨cS, srcs⟩) (fun _ _ => false)
        = "No script issues detected") :=
  ⟨check_xss_ne_empty urlX pageX envX,
   check_ssl_ne_empty envS,
   check_script_issues_ne_empty urlP pageP rmP,
   fun hb => check_xss_clean url c b hb,
   fun hd h1 h2 hv => check_ssl_clean s ciph v days hd h1 h2 hv,
   fun h => check_script_issues_clean urlS cS srcs h⟩

/-- Witness for C7 at concrete clean inputs for all three probes. -/
theorem c7_probe_outputs_witness :
    check_xss "u" (Except.ok ⟨"", [], [], []⟩)
      ⟨fun _ _ => false, fun _ _ _ => Except.ok "", fun _ => Except.ok ""⟩
      = "No XSS issues detected"
  ∧ check_ssl ⟨Except.ok ⟨some ⟨some "Jan  1 00:00:00 2030 GMT"⟩,
      some "AES128-GCM-SHA256", some "TLSv1.3"⟩, fun _ => some 100⟩
      = "No SSL issues detected"
  ∧ check_script_issues "https://u" (Except.ok ⟨"", []⟩) (fun _ _ => false)
      = "No script issues detected" :=
  ⟨(c7_probe_outputs "u" (Except.ok ⟨"", [], [], []⟩)
      ⟨fun _ _ => false, fun _ _ _ => Except.ok "", fun _ => Except.ok ""⟩
      ⟨Except.ok ⟨none, none, none⟩, fun _ => none⟩ "u" (Except.ok ⟨"", []⟩)
      (fun _ _ => false) "u" "" "" "Jan  1 00:00:00 2030 GMT" "AES128-GCM-SHA256"
      "TLSv1.3" "https://u" "" 100 []).2.2.2.1 (by decide),
   (c7_probe_outputs "u" (Except.ok ⟨"", [], [], []⟩)
      ⟨fun _ _ => false, fun _ _ _ => Except.ok "", fun _ => Except.ok ""⟩
      ⟨Except.ok ⟨none, none, none⟩, fun _ => none⟩ "u" (Except.ok ⟨"", []⟩)
      (fun _ _ => false) "u" "" "" "Jan  1 00:00:00 2030 GMT" "AES128-GCM-SHA256"
      "TLSv1.3" "https://u" "" 100 []).2.2.2.2.1 (by decide) (by decide) (by decide)
      (Or.inr rfl),
   (c7_probe_outputs "u" (Except.ok ⟨"", [], [], []⟩)
      ⟨fun _ _ => false, fun _ _ _ => Except.ok "", fun _ => Except.ok ""⟩
      ⟨Except.ok ⟨none, none, none⟩, fun _ => none⟩ "u" (Except.ok ⟨"", []⟩)
      (fun _ _ => false) "u" "" "" "Jan  1 00:00:00 2030 GMT" "AES128-GCM-SHA256"
      "TLSv1.3" "https://u" "" 100 []).2.2.2.2.2 (by decide)⟩

/-- Witness for C9 at concrete slot values. -/
theorem c9_slot_name_triggers_witness :
    containsSub (features_to_text (mkFeatures "" "" "" "" "" "" "" "" "v" "" ""))
      "cross site scripting vulnerability" = true
  ∧ containsSub (features_to_text (mkFeatures "" "" "" "" "" "" "boom" "" "" "" ""))
      "database injection vulnerability" = true :=
  ⟨(c9_slot_name_triggers "" "" "" "" "" "" "" "" "v" "" "").1 (by decide),
   (c9_slot_name_triggers "" "" "" "" "" "" "boom" "" "" "" "").2.2 (by decide)⟩

end ThreatDetector
